import Mathlib

/-!
Shallow embedding of the request-dispatch core of ATAC
(`src/app/app_logic/request/send.rs`).

The embedding models the synchronous part of `App::send_request` as a pure
function on the shared `Request` state, the spawned completion task as two
functions (`task_start`, the task's first locked mutation, and
`task_complete`, everything the task does after the network await), and the
lock/await discipline as an event trace emitted alongside each phase.

External collaborators are parameters collected in `Env`:
`replace_env_keys_by_value` (the placeholder resolver), `Url::parse_with_params`
(reqwest URL parsing, as an oracle returning `none` on parse failure), the
filesystem, `Proxy::http`/`Proxy::https` parse success, `ClientBuilder::build`
success, `find_file_format_in_content_type` (declared in `crate::request::body`,
outside the dispatched source file), `jsonxf::pretty_print`, and the measured
elapsed time.
-/

namespace Atac

/-- One `{enabled, (key, value)}` element of the generic key-value list used
for params, headers, form fields and multipart fields
(`form_data.enabled`, `form_data.data.0`, `form_data.data.1` in the source). -/
structure KeyValue where
  enabled : Bool
  data : String × String
  deriving DecidableEq, Repr

/-- `crate::request::auth::Auth`, as used by the `match &selected_request.auth`. -/
inductive Auth
  | NoAuth
  | BasicAuth (username password : String)
  | BearerToken (token : String)
  deriving DecidableEq, Repr

/-- `crate::request::body::ContentType`, as used by `match &selected_request.body`. -/
inductive ContentType
  | NoBody
  | Multipart (form_data : List KeyValue)
  | Form (form_data : List KeyValue)
  | File (file_path : String)
  | Raw (body : String)
  | Json (body : String)
  | Xml (body : String)
  | Html (body : String)
  | Javascript (body : String)
  deriving DecidableEq, Repr

/-- The per-request settings consumed by `send_request`. -/
structure Settings where
  allow_redirects : Bool
  store_received_cookies : Bool
  use_config_proxy : Bool
  pretty_print_response_content : Bool
  deriving DecidableEq, Repr

/-- The `result` cell written back by the dispatcher. -/
structure RequestResult where
  status_code : Option String := none
  body : Option String := none
  headers : List (String × String) := []
  cookies : Option String := none
  duration : Option String := none
  deriving DecidableEq, Repr

/-- The shared `Request` (the fields `send_request` reads and writes).
`method` is kept opaque as its display string (`to_reqwest` is transport glue). -/
structure Request where
  method : String
  url : String
  params : List KeyValue
  headers : List KeyValue
  auth : Auth
  body : ContentType
  settings : Settings
  is_pending : Bool
  result : RequestResult
  deriving DecidableEq, Repr

/-- Global config proxy section (`config.proxy`). -/
structure ProxyCfg where
  http_proxy : Option String
  https_proxy : Option String
  deriving DecidableEq, Repr

/-- Global config fields consumed by `send_request`. -/
structure Config where
  proxy : Option ProxyCfg
  disable_cors : Option Bool
  deriving DecidableEq, Repr

/-- External collaborators and transport oracles, fixed for one send. -/
structure Env where
  /-- `App::replace_env_keys_by_value`. -/
  resolve : String → String
  /-- `Url::parse_with_params`: `none` models `Err(_)`, `some u` the parsed URL
  rendered back as a string. -/
  parse_url : String → List (String × String) → Option String
  /-- Whether `Proxy::http` / `Proxy::https` accepts the given proxy string. -/
  proxy_ok : String → Bool
  /-- Whether `ClientBuilder::build()` succeeds. -/
  client_build_ok : Bool
  /-- The filesystem: `some bytes` iff the path can be opened and read. -/
  fs : String → Option (List Nat)
  /-- `find_file_format_in_content_type` from `crate::request::body`. -/
  find_format : List (String × String) → Option String
  /-- `jsonxf::pretty_print`: `some s` on success, `none` models `Err`. -/
  prettyJson : String → Option String
  /-- The rendered elapsed duration written at completion. -/
  elapsed : String
  config : Config

/-- Lock and I/O events, recorded in program order, used to state the lock
discipline: which operations happen while the exclusive write lock on the
shared `Request` is held. -/
inductive Event
  | acquireWrite
  | releaseWrite
  | acquireRead
  | releaseRead
  /-- `tokio::fs::File::open(path).await` (File body). -/
  | awaitFileOpen
  /-- a blocking `File::open` + `read_to_end` (multipart `!!` value). -/
  | fileRead
  /-- `request.send().await`. -/
  | awaitNet
  /-- `response.text().await`. -/
  | awaitBodyRead
  /-- `task::spawn(...)`. -/
  | spawn
  deriving DecidableEq, Repr

/-- The client configuration accumulated on `ClientBuilder` before `build()`. -/
structure ClientCfg where
  redirects_disabled : Bool
  cookie_store : Bool
  proxies : List String
  deriving DecidableEq, Repr

/-- One part of a multipart form: `multipart.text(key, value)` or
`Part::bytes(content).file_name(name)` attached under `key`. -/
inductive Part
  | text (key value : String)
  | file (key : String) (content : List Nat) (file_name : String)
  deriving DecidableEq, Repr

/-- The payload attached to the outbound request. -/
inductive Payload
  | empty
  | raw (body : String)
  | form (pairs : List (String × String))
  | multipart (parts : List Part)
  | fileStream (path : String)
  deriving DecidableEq, Repr

/-- Auth after placeholder resolution, as attached to the call. -/
inductive ResolvedAuth
  | noAuth
  | basic (username password : String)
  | bearer (token : String)
  deriving DecidableEq, Repr

/-- The fully assembled outbound call handed to the spawned task. -/
structure PreparedCall where
  client : ClientCfg
  method : String
  url : String
  fetch_no_cors : Bool
  auth : ResolvedAuth
  payload : Payload
  headers : List (String × String)
  deriving DecidableEq, Repr

/-- Outcome of the synchronous phase of `send_request`: the shared `Request`
as left by the phase, the spawned call if any, and the event trace. -/
structure SyncOutcome where
  req : Request
  spawned : Option PreparedCall
  events : List Event
  deriving DecidableEq, Repr

/-- The synchronous phase either panics (`panic_error` on a malformed proxy,
`.expect` on client build) or runs to a return. -/
inductive SyncResult
  | panicked (msg : String)
  | done (o : SyncOutcome)
  deriving DecidableEq, Repr

/-- Modelled from the spec: `App::key_value_vec_to_tuple_vec` is declared
outside the dispatched source file; per the spec the list-of-enabled-key-value
pairs representation keeps only enabled entries, resolving key and value,
order preserved ("append enabled params as query pairs (duplicate keys
allowed, order preserved)"; "`Form`: enabled pairs are resolved and
form-url-encoded"). -/
def key_value_vec_to_tuple_vec (env : Env) (l : List KeyValue) : List (String × String) :=
  (l.filter (fun kv => kv.enabled)).map (fun kv => (env.resolve kv.data.1, env.resolve kv.data.2))

/-- Lines 46-75: proxy installation; a proxy string rejected by
`Proxy::http`/`Proxy::https` hits `panic_error` (modelled as `.error msg`).
On success, the list of installed proxy strings, in installation order. -/
def proxy_stage (env : Env) (req : Request) : Except String (List String) :=
  if req.settings.use_config_proxy then
    match env.config.proxy with
    | none => .ok []
    | some p =>
      match p.http_proxy with
      | none =>
        match p.https_proxy with
        | none => .ok []
        | some s => if env.proxy_ok s then .ok [s] else .error "Could not parse HTTPS proxy"
      | some s =>
        if env.proxy_ok s then
          match p.https_proxy with
          | none => .ok [s]
          | some s2 => if env.proxy_ok s2 then .ok [s, s2] else .error "Could not parse HTTPS proxy"
        else .error "Could not parse HTTP proxy"
  else .ok []

/-- `value.starts_with("!!")`, modelled character-wise (the sentinel is
2 ASCII bytes, so byte and character prefixes agree). -/
def strStartsWith (s p : String) : Bool :=
  p.data.isPrefixOf s.data

/-- `&value[2..]` on a string with a 2-byte ASCII prefix, modelled as dropping
the first `n` characters. -/
def strDrop (s : String) (n : Nat) : String :=
  .mk (s.data.drop n)

/-- The characters after the last `/` of the scanned prefix. -/
def lastComponent : List Char → List Char → List Char
  | [], acc => acc
  | c :: rest, acc =>
    if c = '/' then lastComponent rest [] else lastComponent rest (acc ++ [c])

/-- `Path::file_name` rendered to a string, modelled as the final
`/`-separated component of the path. -/
def basename (path : String) : String :=
  .mk (lastComponent path.data [])

/-- Lines 289-298: read a file fully and pair the bytes with the path's base
filename. `none` models the `?`-propagated `io::Error`. -/
def get_file_content_with_name (env : Env) (path : String) : Option (List Nat × String) :=
  (env.fs path).map (fun bytes => (bytes, basename path))

/-- Lines 140-160, one loop iteration: resolve key and value; a value starting
with `!!` is loaded as a file part named by its base filename, otherwise a
text part. Note the source loop has no `enabled` check. `none` models the
`Err(_)` arm (could not open file). -/
def encode_item (env : Env) (it : KeyValue) : Option Part :=
  let key := env.resolve it.data.1
  let value := env.resolve it.data.2
  if strStartsWith value "!!" then
    let path := strDrop value 2
    match get_file_content_with_name env path with
    | some (content, name) => some (Part.file key content name)
    | none => none
  else
    some (Part.text key value)

/-- Lines 137-161: the multipart loop, aborting at the first failed file read;
also returns the `fileRead` events attempted, in order. -/
def encode_multipart (env : Env) : List KeyValue → Option (List Part) × List Event
  | [] => (some [], [])
  | it :: rest =>
    let ev : List Event := if strStartsWith (env.resolve it.data.2) "!!" then [.fileRead] else []
    match encode_item env it with
    | none => (none, ev)
    | some p =>
      let (r, es) := encode_multipart env rest
      (r.map (fun ps => p :: ps), ev ++ es)

/-- Lines 134-187: the body match. `none` payload models an early return with
the could-not-open-file sentinel; the events record file I/O performed here. -/
def body_stage (env : Env) (b : ContentType) : Option Payload × List Event :=
  match b with
  | .NoBody => (some .empty, [])
  | .Multipart form_data =>
    let (r, es) := encode_multipart env form_data
    (r.map Payload.multipart, es)
  | .Form form_data => (some (.form (key_value_vec_to_tuple_vec env form_data)), [])
  | .File file_path =>
    let path := env.resolve file_path
    match env.fs path with
    | some _ => (some (.fileStream path), [.awaitFileOpen])
    | none => (none, [.awaitFileOpen])
  | .Raw body | .Json body | .Xml body | .Html body | .Javascript body => (some (.raw body), [])

/-- Lines 117-130: auth resolution at send time. -/
def resolve_auth (env : Env) : Auth → ResolvedAuth
  | .NoAuth => .noAuth
  | .BasicAuth username password => .basic (env.resolve username) (env.resolve password)
  | .BearerToken token => .bearer (env.resolve token)

/-- Lines 191-200: the header loop, skipping disabled entries and appending
resolved name/value pairs to the accumulated call. -/
def add_headers (env : Env) (acc : List (String × String)) : List KeyValue → List (String × String)
  | [] => acc
  | h :: rest =>
    if h.enabled then
      add_headers env (acc ++ [(env.resolve h.data.1, env.resolve h.data.2)]) rest
    else
      add_headers env acc rest

/-- Lines 19-286, the synchronous body of `App::send_request`: the write lock
is taken for the whole block; the pending guard, client build, URL parse,
auth/body/header assembly and the `task::spawn` all happen under it. The
spawned closure itself is modelled by `task_start`/`task_complete`. -/
def send_request (env : Env) (req : Request) : SyncResult :=
  if req.is_pending then
    .done { req := req, spawned := none, events := [.acquireWrite, .releaseWrite] }
  else
    match proxy_stage env req with
    | .error msg => .panicked msg
    | .ok proxies =>
      if env.client_build_ok then
        let client : ClientCfg :=
          { redirects_disabled := !req.settings.allow_redirects
            cookie_store := req.settings.store_received_cookies
            proxies := proxies }
        let params := key_value_vec_to_tuple_vec env req.params
        let url0 := env.resolve req.url
        match env.parse_url url0 params with
        | none =>
          .done { req := { req with result := { req.result with status_code := some "INVALID URL" } }
                  spawned := none
                  events := [.acquireWrite, .releaseWrite] }
        | some url =>
          let fetch_no_cors := (env.config.disable_cors).getD false
          let auth := resolve_auth env req.auth
          match body_stage env req.body with
          | (none, es) =>
            .done { req := { req with result := { req.result with status_code := some "COULD NOT OPEN FILE" } }
                    spawned := none
                    events := [.acquireWrite] ++ es ++ [.releaseWrite] }
          | (some payload, es) =>
            let call : PreparedCall :=
              { client := client
                method := req.method
                url := url
                fetch_no_cors := fetch_no_cors
                auth := auth
                payload := payload
                headers := add_headers env [] req.headers }
            .done { req := req
                    spawned := some call
                    events := [.acquireWrite] ++ es ++ [.spawn, .releaseWrite] }
      else
        .panicked "Could not build HTTP client"

/-- The call handed to the spawned task, if the phase dispatched one. -/
def SyncResult.spawnedCall : SyncResult → Option PreparedCall
  | .done o => o.spawned
  | .panicked _ => none

/-- The shared `Request` as left by the synchronous phase (when it returned). -/
def SyncResult.reqAfter : SyncResult → Option Request
  | .done o => some o.req
  | .panicked _ => none

/-- The event trace of the synchronous phase (empty when it panicked). -/
def SyncResult.syncEvents : SyncResult → List Event
  | .done o => o.events
  | .panicked _ => []

/-- A transport response as the task observes it: status line rendered as
text, headers already decoded (`to_str().unwrap_or("")`), cookies as
name/value pairs, and the body text — `none` models `response.text().await`
returning `Err`. -/
structure Response where
  status : String
  headers : List (String × String)
  cookies : List (String × String)
  text : Option String
  deriving DecidableEq, Repr

/-- A transport error: `error.status()` and `error.to_string()`. -/
structure TransportError where
  status : Option String
  message : String
  deriving DecidableEq, Repr

/-- What `request.send().await` produced. -/
inductive TransportOutcome
  | ok (resp : Response)
  | err (e : TransportError)
  deriving DecidableEq, Repr

/-- The spawned task either runs to the end or panics (the `unwrap` on
`response.text().await` at line 233); either way it leaves the shared
`Request` in the carried state. -/
inductive TaskResult
  | panicked (r : Request)
  | done (r : Request)
  deriving DecidableEq, Repr

/-- Line 208, the spawned task's first action: take the write lock and set
`is_pending = true`. -/
def task_start (r : Request) : Request :=
  { r with is_pending := true }

/-- Lines 210-283, everything after `request.send().await`, applied to the
shared `Request` state `r` as it stands when completion runs. Success path:
capture status, decoded headers, newline-joined cookie summary; read the body
text (`unwrap` — a read failure panics); re-read
`settings.pretty_print_response_content` from the shared request and
best-effort pretty-print a JSON body; publish status/body/cookies/headers,
then duration, then clear `is_pending`. Error path: publish the error's
status (if any), its text as body, empty headers, no cookies. -/
def task_complete (env : Env) (out : TransportOutcome) (r : Request) : TaskResult :=
  match out with
  | .ok resp =>
    let status_code := resp.status
    let headers := resp.headers
    let cookies := String.intercalate "\n" (resp.cookies.map (fun c => c.1 ++ ": " ++ c.2))
    match resp.text with
    | none => .panicked r
    | some b =>
      let result_body :=
        if r.settings.pretty_print_response_content then
          match env.find_format headers with
          | some file_format => if file_format == "json" then (env.prettyJson b).getD b else b
          | none => b
        else b
      .done { r with
              is_pending := false
              result := { status_code := some status_code
                          body := some result_body
                          cookies := some cookies
                          headers := headers
                          duration := some env.elapsed } }
  | .err e =>
    .done { r with
            is_pending := false
            result := { status_code := e.status
                        body := some e.message
                        cookies := none
                        headers := []
                        duration := some env.elapsed } }

/-- The lock/await trace of the spawned task. Line 208 is one locked
statement; the send await follows unlocked; on success the body-read await,
the read-locked settings check and three short write-locked mutations follow
(the body-read `unwrap` panic cuts the trace); on error, three short
write-locked mutations. -/
def task_events (out : TransportOutcome) : List Event :=
  [.acquireWrite, .releaseWrite, .awaitNet] ++
    match out with
    | .ok resp =>
      match resp.text with
      | none => [.awaitBodyRead]
      | some _ =>
        [.awaitBodyRead, .acquireRead, .releaseRead,
         .acquireWrite, .releaseWrite, .acquireWrite, .releaseWrite,
         .acquireWrite, .releaseWrite]
    | .err _ =>
      [.acquireWrite, .releaseWrite, .acquireWrite, .releaseWrite,
       .acquireWrite, .releaseWrite]

/-- Is this event an I/O suspension point (an await, a blocking file read, or
the network call)? -/
def Event.isIoPoint : Event → Bool
  | .awaitFileOpen | .fileRead | .awaitNet | .awaitBodyRead => true
  | _ => false

/-- Scan a trace with the current exclusive-lock depth: does some I/O
suspension point occur while the write lock is held? -/
def ioUnderWriteLockAux : List Event → Nat → Bool
  | [], _ => false
  | e :: rest, depth =>
    match e with
    | .acquireWrite => ioUnderWriteLockAux rest (depth + 1)
    | .releaseWrite => ioUnderWriteLockAux rest (depth - 1)
    | e' => (e'.isIoPoint && decide (0 < depth)) || ioUnderWriteLockAux rest depth

/-- Does some I/O suspension point occur while the exclusive lock is held? -/
def ioUnderWriteLock (es : List Event) : Bool :=
  ioUnderWriteLockAux es 0

/-- The shared `Request` after the task ran (or as it stood when it panicked). -/
def TaskResult.reqOf : TaskResult → Request
  | .panicked r => r
  | .done r => r

/-- The published body, when the task ran to the end. -/
def TaskResult.doneBody : TaskResult → Option String
  | .panicked _ => none
  | .done r => r.result.body

/-- Did the task panic instead of running to the end? -/
def TaskResult.isPanicked : TaskResult → Bool
  | .panicked _ => true
  | .done _ => false

/-- `r` with `settings.pretty_print_response_content` set to `v` (the UI edit
that can happen while a send is in flight). -/
def Request.setPPR (r : Request) (v : Bool) : Request :=
  { r with settings := { r.settings with pretty_print_response_content := v } }

/-! ### Concrete fixtures -/

/-- An environment where resolution is the identity, every URL parses, no file
exists, proxies parse, the client builds, and nothing is recognized as a
structured format. -/
def idEnv : Env :=
  { resolve := id
    parse_url := fun u _ => some u
    proxy_ok := fun _ => true
    client_build_ok := true
    fs := fun _ => none
    find_format := fun _ => none
    prettyJson := fun _ => none
    elapsed := "1s"
    config := { proxy := none, disable_cors := none } }

def baseSettings : Settings :=
  { allow_redirects := true
    store_received_cookies := true
    use_config_proxy := false
    pretty_print_response_content := false }

/-- An idle GET request with no params, headers, auth or body. -/
def baseReq : Request :=
  { method := "GET"
    url := "https://example.com"
    params := []
    headers := []
    auth := .NoAuth
    body := .NoBody
    settings := baseSettings
    is_pending := false
    result := {} }

/-- `baseReq` already in flight. -/
def pendingReq : Request :=
  { baseReq with is_pending := true }

/-- `idEnv` but URL parsing always fails. -/
def badUrlEnv : Env :=
  { idEnv with parse_url := fun _ _ => none }

/-- A multipart body whose single pair is disabled. -/
def disabledPairReq : Request :=
  { baseReq with body := .Multipart [{ enabled := false, data := ("k", "v") }] }

/-- A multipart body whose single enabled pair points at a missing file. -/
def missingFileReq : Request :=
  { baseReq with body := .Multipart [{ enabled := true, data := ("f", "!!/tmp/missing.bin") }] }

/-- The header triples of the spec's order example. -/
def abcReq : Request :=
  { baseReq with headers :=
      [{ enabled := true, data := ("A", "1") },
       { enabled := false, data := ("B", "2") },
       { enabled := true, data := ("C", "3") }] }

/-- The call `send_request idEnv abcReq` dispatches. -/
def abcCall : PreparedCall :=
  { client := { redirects_disabled := false, cookie_store := true, proxies := [] }
    method := "GET"
    url := "https://example.com"
    fetch_no_cors := false
    auth := .noAuth
    payload := .empty
    headers := [("A", "1"), ("C", "3")] }

/-- A File body request. -/
def fileReq : Request :=
  { baseReq with body := .File "/tmp/data.bin" }

/-- `idEnv` but every file exists with one byte of content. -/
def fileEnv : Env :=
  { idEnv with fs := fun _ => some [0] }

/-- A response whose body text could not be read (`response.text()` errs). -/
def badBodyResp : Response :=
  { status := "200 OK", headers := [], cookies := [], text := none }

/-- A JSON response for the pretty-print claims. -/
def okResp : Response :=
  { status := "200 OK"
    headers := [("content-type", "application/json")]
    cookies := []
    text := some "[1, 2]" }

/-- `idEnv` but the content type detector reports JSON and the pretty-printer
succeeds with a recognizable output. -/
def jsonEnv : Env :=
  { idEnv with
    find_format := fun _ => some "json"
    prettyJson := fun _ => some "PRETTY" }

/-! ### Claim theorems -/

/-- C1: the claim says `is_pending` is set to true synchronously under the
lock at the moment of acceptance, before the task is spawned. The code
instead sets it only inside the spawned task (its first action): an accepted
send leaves the shared request completely unchanged — `is_pending` still
false — while a task has been spawned, so a second `send_request` arriving
before the task's first step passes the guard and dispatches again. -/
theorem c1_pending_not_set_before_spawn :
    (send_request idEnv baseReq).spawnedCall.isSome = true ∧
    (send_request idEnv baseReq).reqAfter = some baseReq ∧
    baseReq.is_pending = false ∧
    (send_request idEnv ((send_request idEnv baseReq).reqAfter.getD baseReq)).spawnedCall.isSome
      = true ∧
    (task_start baseReq).is_pending = true :=
  ⟨rfl, rfl, rfl, rfl, rfl⟩

/-- C2: a send on a request that is already pending is a no-op — the request
(all fields) is returned unchanged and no task is dispatched (all network I/O
in this model happens in a spawned task). -/
theorem c2_send_while_pending_is_noop (env : Env) (req : Request)
    (h : req.is_pending = true) :
    (send_request env req).reqAfter = some req ∧
    (send_request env req).spawnedCall = none := by
  constructor <;> simp [send_request, h, SyncResult.reqAfter, SyncResult.spawnedCall]

theorem c2_witness :
    pendingReq.is_pending = true ∧
    (send_request idEnv pendingReq).reqAfter = some pendingReq ∧
    (send_request idEnv pendingReq).spawnedCall = none :=
  ⟨rfl, (c2_send_while_pending_is_noop idEnv pendingReq rfl).1,
    (c2_send_while_pending_is_noop idEnv pendingReq rfl).2⟩

/-- C4: a transport error publishes the error's carried HTTP status verbatim
as `status_code` (`some` if it carried one, `none` otherwise, never a
sentinel), the error text as body, an empty header sequence, no cookies, and
the task does not panic. -/
theorem c4_transport_error_result (env : Env) (e : TransportError) (r : Request) :
    (task_complete env (.err e) r).reqOf.result.status_code = e.status ∧
    (task_complete env (.err e) r).reqOf.result.body = some e.message ∧
    (task_complete env (.err e) r).reqOf.result.headers = [] ∧
    (task_complete env (.err e) r).reqOf.result.cookies = none ∧
    (task_complete env (.err e) r).isPanicked = false :=
  ⟨rfl, rfl, rfl, rfl, rfl⟩

/-- C6: the claim says a disabled multipart pair contributes no part. The
code's multipart loop has no `enabled` check (unlike params, form and
headers): a send whose multipart body holds one disabled pair dispatches a
call whose payload carries that pair as a text part. -/
theorem c6_disabled_multipart_pair_still_sent :
    (send_request idEnv disabledPairReq).spawnedCall.map PreparedCall.payload =
      some (.multipart [.text "k" "v"]) ∧
    ((send_request idEnv disabledPairReq).spawnedCall.map PreparedCall.payload ≠
      some (.multipart [])) :=
  ⟨rfl, by decide⟩

/-- C8: the claim says every error path in the spawned task terminates by
writing result fields. The code calls `.unwrap()` on `response.text().await`
(line 233): when the body cannot be read after a successful exchange, the
task panics, writes no result field, and leaves `is_pending` true forever. -/
theorem c8_body_read_failure_panics :
    task_complete idEnv (.ok badBodyResp) pendingReq = .panicked pendingReq ∧
    (task_complete idEnv (.ok badBodyResp) pendingReq).reqOf.is_pending = true ∧
    (task_complete idEnv (.ok badBodyResp) pendingReq).reqOf.result = ({} : RequestResult) :=
  ⟨rfl, rfl, rfl⟩

/-- C3: when the resolved URL plus enabled query params fails to parse, the
send writes the `INVALID URL` sentinel into `result.status_code`, leaves every
other field of the request (body, headers, cookies, duration of the result,
and `is_pending`) at its prior value, and dispatches nothing. -/
theorem c3_invalid_url_sentinel (env : Env) (req : Request)
    (h1 : req.is_pending = false)
    (h2 : ∀ msg, proxy_stage env req ≠ .error msg)
    (h3 : env.client_build_ok = true)
    (h4 : env.parse_url (env.resolve req.url) (key_value_vec_to_tuple_vec env req.params)
            = none) :
    (send_request env req).reqAfter =
      some { req with result := { req.result with status_code := some "INVALID URL" } } ∧
    (send_request env req).spawnedCall = none := by
  cases hp : proxy_stage env req with
  | error msg => exact absurd hp (h2 msg)
  | ok proxies =>
    constructor <;>
      simp [send_request, h1, hp, h3, h4, SyncResult.reqAfter, SyncResult.spawnedCall]

theorem c3_witness :
    baseReq.is_pending = false ∧
    badUrlEnv.parse_url (badUrlEnv.resolve baseReq.url)
        (key_value_vec_to_tuple_vec badUrlEnv baseReq.params) = none ∧
    (send_request badUrlEnv baseReq).reqAfter =
      some { baseReq with
             result := { baseReq.result with status_code := some "INVALID URL" } } ∧
    (send_request badUrlEnv baseReq).spawnedCall = none := by
  have h := c3_invalid_url_sentinel badUrlEnv baseReq rfl
    (fun msg h => by simp [proxy_stage, badUrlEnv, idEnv, baseReq, baseSettings] at h) rfl rfl
  exact ⟨rfl, rfl, h.1, h.2⟩

/-- C5: (i) a multipart item fails to encode exactly when its resolved value
starts with `!!` and the file at the remainder cannot be read; (ii) when the
file can be read the item becomes a file part under the resolved key, carrying
the file bytes and the path's base filename; (iii) a send whose multipart body
fails to encode writes the `COULD NOT OPEN FILE` sentinel into
`result.status_code` and dispatches nothing. -/
theorem c5_multipart_file_sentinel :
    (∀ (env : Env) (it : KeyValue), encode_item env it = none ↔
        (strStartsWith (env.resolve it.data.2) "!!" = true ∧
         env.fs (strDrop (env.resolve it.data.2) 2) = none)) ∧
    (∀ (env : Env) (it : KeyValue) (content : List Nat),
        strStartsWith (env.resolve it.data.2) "!!" = true →
        env.fs (strDrop (env.resolve it.data.2) 2) = some content →
        encode_item env it =
          some (.file (env.resolve it.data.1) content
                 (basename (strDrop (env.resolve it.data.2) 2)))) ∧
    (∀ (env : Env) (req : Request) (form_data : List KeyValue) (u : String),
        req.is_pending = false →
        (∀ msg, proxy_stage env req ≠ .error msg) →
        env.client_build_ok = true →
        env.parse_url (env.resolve req.url) (key_value_vec_to_tuple_vec env req.params)
          = some u →
        req.body = .Multipart form_data →
        (encode_multipart env form_data).1 = none →
        (send_request env req).reqAfter =
          some { req with
                 result := { req.result with status_code := some "COULD NOT OPEN FILE" } } ∧
        (send_request env req).spawnedCall = none) := by
  refine ⟨?_, ?_, ?_⟩
  · intro env it
    cases hsw : strStartsWith (env.resolve it.data.2) "!!" with
    | false => simp [encode_item, hsw, get_file_content_with_name]
    | true =>
      cases hfs : env.fs (strDrop (env.resolve it.data.2) 2) with
      | none => simp [encode_item, hsw, get_file_content_with_name, hfs]
      | some content => simp [encode_item, hsw, get_file_content_with_name, hfs]
  · intro env it content hsw hfs
    simp [encode_item, hsw, get_file_content_with_name, hfs]
  · intro env req form_data u h1 h2 h3 h4 hbody henc
    cases hp : proxy_stage env req with
    | error msg => exact absurd hp (h2 msg)
    | ok proxies =>
      cases hem : encode_multipart env form_data with
      | mk r es =>
        rw [hem] at henc
        simp only at henc
        subst henc
        constructor <;>
          simp [send_request, h1, hp, h3, h4, hbody, body_stage, hem,
                SyncResult.reqAfter, SyncResult.spawnedCall]

theorem c5_witness :
    missingFileReq.body =
      .Multipart [{ enabled := true, data := ("f", "!!/tmp/missing.bin") }] ∧
    (encode_multipart idEnv
        [{ enabled := true, data := ("f", "!!/tmp/missing.bin") }]).1 = none ∧
    (send_request idEnv missingFileReq).reqAfter =
      some { missingFileReq with
             result := { missingFileReq.result with
                         status_code := some "COULD NOT OPEN FILE" } } ∧
    (send_request idEnv missingFileReq).spawnedCall = none := by
  have h := c5_multipart_file_sentinel.2.2 idEnv missingFileReq
    [{ enabled := true, data := ("f", "!!/tmp/missing.bin") }] "https://example.com"
    rfl (fun msg h => by simp [proxy_stage, idEnv, missingFileReq, baseReq, baseSettings] at h)
    rfl rfl rfl (by decide)
  exact ⟨rfl, by decide, h.1, h.2⟩

/-- The header loop appends exactly the enabled headers, resolved, in order. -/
theorem add_headers_eq (env : Env) (l : List KeyValue) (acc : List (String × String)) :
    add_headers env acc l =
      acc ++ (l.filter (fun h => h.enabled)).map
        (fun h => (env.resolve h.data.1, env.resolve h.data.2)) := by
  induction l generalizing acc with
  | nil => simp [add_headers]
  | cons h rest ih =>
    cases he : h.enabled <;> simp [add_headers, he, ih]

/-- C7: every dispatched call carries exactly the enabled headers of the
request, in their original order, with each name and value resolved; disabled
headers never appear. -/
theorem c7_enabled_headers_in_order (env : Env) (req : Request) (call : PreparedCall)
    (h : (send_request env req).spawnedCall = some call) :
    call.headers =
      (req.headers.filter (fun kv => kv.enabled)).map
        (fun kv => (env.resolve kv.data.1, env.resolve kv.data.2)) := by
  unfold send_request at h
  by_cases hpend : req.is_pending
  · simp [hpend, SyncResult.spawnedCall] at h
  · simp only [hpend, if_false, Bool.false_eq_true, if_neg, reduceIte] at h
    cases hp : proxy_stage env req with
    | error msg => rw [hp] at h; simp [SyncResult.spawnedCall] at h
    | ok proxies =>
      rw [hp] at h
      by_cases hb : env.client_build_ok
      · simp only [hb, if_true, reduceIte] at h
        cases hu : env.parse_url (env.resolve req.url)
            (key_value_vec_to_tuple_vec env req.params) with
        | none => rw [hu] at h; simp [SyncResult.spawnedCall] at h
        | some u =>
          rw [hu] at h
          cases hbs : body_stage env req.body with
          | mk pl es =>
            rw [hbs] at h
            cases pl with
            | none => simp [SyncResult.spawnedCall] at h
            | some payload =>
              simp only [SyncResult.spawnedCall, Option.some.injEq] at h
              rw [← h]
              exact add_headers_eq env req.headers []
      · simp [hb, SyncResult.spawnedCall] at h

theorem c7_witness :
    (send_request idEnv abcReq).spawnedCall = some abcCall ∧
    abcCall.headers =
      (abcReq.headers.filter (fun kv => kv.enabled)).map
        (fun kv => (idEnv.resolve kv.data.1, idEnv.resolve kv.data.2)) ∧
    abcCall.headers = [("A", "1"), ("C", "3")] :=
  ⟨rfl, c7_enabled_headers_in_order idEnv abcReq abcCall rfl, rfl⟩

/-- C9, as stated, is false: a send with a File body awaits
`tokio::fs::File::open` while the write lock taken at the top of
`send_request` is still held, so an I/O suspension point occurs under the
exclusive lock. -/
theorem c9_counterexample :
    fileReq.body = .File "/tmp/data.bin" ∧
    ioUnderWriteLock (send_request fileEnv fileReq).syncEvents = true :=
  ⟨rfl, rfl⟩

/-- C9 amended: the completion task's exclusive locks are held only around
individual mutations and never across an await or the network call; the
synchronous phase, however, holds the exclusive lock for the whole assembly
and, for a File body, across the file-open await. -/
theorem c9_amended_lock_discipline :
    (∀ out : TransportOutcome, ioUnderWriteLock (task_events out) = false) ∧
    (∀ (env : Env) (req : Request) (fp : String) (u : String),
        req.is_pending = false →
        (∀ msg, proxy_stage env req ≠ .error msg) →
        env.client_build_ok = true →
        env.parse_url (env.resolve req.url) (key_value_vec_to_tuple_vec env req.params)
          = some u →
        req.body = .File fp →
        ioUnderWriteLock (send_request env req).syncEvents = true) := by
  constructor
  · intro out
    cases out with
    | ok resp =>
      cases hr : resp.text <;>
        simp [task_events, hr, ioUnderWriteLock, ioUnderWriteLockAux, Event.isIoPoint]
    | err e => rfl
  · intro env req fp u h1 h2 h3 h4 hbody
    cases hp : proxy_stage env req with
    | error msg => exact absurd hp (h2 msg)
    | ok proxies =>
      cases hfs : env.fs (env.resolve fp) <;>
        simp [send_request, h1, hp, h3, h4, hbody, body_stage, hfs,
              SyncResult.syncEvents, ioUnderWriteLock, ioUnderWriteLockAux, Event.isIoPoint]

theorem c9_amended_witness :
    ioUnderWriteLock (task_events (.err { status := none, message := "connection refused" }))
      = false ∧
    ioUnderWriteLock (send_request fileEnv fileReq).syncEvents = true :=
  ⟨c9_amended_lock_discipline.1 _,
   c9_amended_lock_discipline.2 fileEnv fileReq "/tmp/data.bin" "https://example.com"
     rfl (fun _ h => Except.noConfusion h) rfl rfl rfl⟩

/-- C10: the pretty-print setting that governs the published body is the one
read from the shared request when the completion runs: whatever the flag was
when the send was dispatched (the spawned call carries no settings), forcing
the flag at completion time decides whether the JSON body is reformatted. -/
theorem c10_pretty_print_read_at_completion (env : Env) (resp : Response) (r : Request)
    (b : String) (h : resp.text = some b) :
    (task_complete env (.ok resp) (r.setPPR true)).doneBody =
      some (match env.find_format resp.headers with
            | some file_format => if file_format == "json" then (env.prettyJson b).getD b else b
            | none => b) ∧
    (task_complete env (.ok resp) (r.setPPR false)).doneBody = some b := by
  constructor <;> simp [task_complete, h, Request.setPPR, TaskResult.doneBody]

theorem c10_witness :
    okResp.text = some "[1, 2]" ∧
    (task_complete jsonEnv (.ok okResp) (baseReq.setPPR true)).doneBody = some "PRETTY" ∧
    (task_complete jsonEnv (.ok okResp) (baseReq.setPPR false)).doneBody = some "[1, 2]" :=
  ⟨rfl,
   ((c10_pretty_print_read_at_completion jsonEnv okResp baseReq "[1, 2]" rfl).1).trans
     (by decide),
   (c10_pretty_print_read_at_completion jsonEnv okResp baseReq "[1, 2]" rfl).2⟩

end Atac
